import Mathlib

/-!
Verification of the admin-dashboard repository (Streamlit user-management
app).  Shallow embedding of the Python source:

* `src/utils/auth.py`          — `AuthManager` (session lifecycle, audit log)
* `src/components/user_forms.py` — form submit handlers and the bulk dispatcher
* `src/utils/supabase_client.py` — `SupabaseAdmin` facade over the backend SDK
* `src/utils/database_setup.py`  — `DatabaseSetup.execute_setup`
* `src/app.py` / `src/enhanced_app.py` — `render_user_management` filters

Streamlit's `st.session_state` is modelled as an explicit record; absent
keys are `Option.none`.  Timestamps are integer seconds (`24h = 86400`).
`st.rerun` raises a control-flow exception that does not touch
`session_state`, so it is not modelled; only the state effect and the
(syntactic) return value of each routine are.
-/

namespace AdminApp

/-- The admin user object stored under `st.session_state['admin_user']`
(only the fields the code reads: `.get('id')`, `.get('email')`). -/
structure AdminUser where
  id : String
  email : String
  deriving DecidableEq, Repr

/-- One audit-log entry, as built by `AuthManager.log_admin_action`
(`src/utils/auth.py` lines 94–101).  Composite detail values (dicts, lists)
are rendered to strings, matching their JSON-ish payload role. -/
structure LogEntry where
  admin_id : String
  admin_email : String
  action : String
  details : List (String × String)
  timestamp : String
  ip_address : String
  deriving DecidableEq, Repr

/-- The slice of `st.session_state` the embedded code touches.  A field of
`none` means the key is absent.  `audit_logs` defaults to `[]`, which is
indistinguishable from an absent key for every operation modelled. -/
structure SessionState where
  admin_authenticated : Option Bool
  admin_user : Option AdminUser
  session_token : Option String
  session_created : Option Int
  audit_logs : List LogEntry
  deriving DecidableEq, Repr

/-- Python truthiness of `st.session_state.get('session_token')`:
falsy when the key is absent or holds the empty string. -/
def tokenFalsy : Option String → Bool
  | none => true
  | some s => s.isEmpty

/-- `AuthManager.logout` (`src/utils/auth.py` lines 48–54): deletes the keys
`admin_authenticated`, `admin_user`, `session_token` — and only those — then
calls `st.rerun()`. -/
def logout (s : SessionState) : SessionState :=
  { s with admin_authenticated := none, admin_user := none, session_token := none }

/-- `AuthManager.validate_session` (`src/utils/auth.py` lines 66–81),
with `now` the value of `datetime.now()` in seconds.  Returns the boolean
result together with the session state it leaves behind. -/
def validate_session (now : Int) (s : SessionState) : Bool × SessionState :=
  if tokenFalsy s.session_token then (false, s)
  else
    match s.session_created with
    | none => (false, s)
    | some created =>
      if now - created > 86400 then (false, logout s)
      else (true, s)

/-- "No session exists": the code's two early-exit tests — falsy token or
absent creation timestamp. -/
def noSession (s : SessionState) : Bool :=
  tokenFalsy s.session_token || s.session_created.isNone

/-- The code's expiry test `datetime.now() - session_created > timedelta(hours=24)`
(vacuously false when no creation timestamp is stored). -/
def isExpired (now : Int) (s : SessionState) : Bool :=
  match s.session_created with
  | none => false
  | some created => now - created > 86400

/-- An audit entry as assembled by `log_admin_action`. -/
def auditEntry (u : AdminUser) (action : String) (details : List (String × String))
    (now ip : String) : LogEntry :=
  { admin_id := u.id, admin_email := u.email, action := action,
    details := details, timestamp := now, ip_address := ip }

/-- `AuthManager.log_admin_action` (`src/utils/auth.py` lines 90–108):
reads `admin_user` from session state; if absent the call does nothing,
otherwise appends one entry to `audit_logs`.  `now` is
`datetime.now().isoformat()`, `ip` is `get_user_ip()`. -/
def log_admin_action (now ip action : String) (details : List (String × String))
    (s : SessionState) : SessionState :=
  match s.admin_user with
  | none => s
  | some u => { s with audit_logs := s.audit_logs ++ [auditEntry u action details now ip] }

/-- C5: `validate_session` returns false iff no session exists (falsy token
or missing creation timestamp) or the session is expired
(`now - createdAt > 24h`); otherwise it returns true. -/
theorem C5_validate_session_false_iff (now : Int) (s : SessionState) :
    (validate_session now s).fst = false ↔ (noSession s || isExpired now s) = true := by
  unfold validate_session noSession isExpired
  cases htok : tokenFalsy s.session_token <;> simp [htok]
  cases hc : s.session_created <;> simp [hc]
  split_ifs with h <;> simp [h]

/-- The demo admin identity from `src/utils/auth.py` lines 143–148. -/
def demoAdmin : AdminUser :=
  { id := "demo-admin-id", email := "entremotivator@gmail.com" }

/-- A session with a token but no creation timestamp. -/
def cexS0 : SessionState :=
  { admin_authenticated := some true, admin_user := some demoAdmin,
    session_token := some "tok", session_created := none, audit_logs := [] }

/-- A fully populated session created at time 0. -/
def cexS1 : SessionState :=
  { admin_authenticated := some true, admin_user := some demoAdmin,
    session_token := some "tok", session_created := some 0, audit_logs := [] }

/-- C2 counterexample: a failed validation does NOT always clear all
session state.  With a token present but no creation timestamp,
`validate_session` returns false and leaves every field in place (the token
survives); and even in the expiry case the creation timestamp survives
`logout`. -/
theorem C2_clear_on_failure_cex :
    ((validate_session 0 cexS0).fst = false
      ∧ (validate_session 0 cexS0).snd.session_token = some "tok")
    ∧ ((validate_session 100000 cexS1).fst = false
      ∧ (validate_session 100000 cexS1).snd.session_created = some 0) := by
  decide

/-- C2 amended: `validate_session` clears state only on the expiry failure,
by calling `logout`, which removes the authenticated flag, the user and the
token but leaves the creation timestamp; a failure due to a missing session
(falsy token or absent creation timestamp) leaves the state unchanged. -/
theorem C2_session_clear_amended (now : Int) (s : SessionState) :
    (noSession s = true → validate_session now s = (false, s))
    ∧ (∀ c, s.session_created = some c → tokenFalsy s.session_token = false →
        now - c > 86400 →
        validate_session now s = (false, logout s)
          ∧ (logout s).session_created = s.session_created
          ∧ (logout s).admin_authenticated = none
          ∧ (logout s).admin_user = none
          ∧ (logout s).session_token = none) := by
  constructor
  · intro h
    unfold validate_session
    unfold noSession at h
    cases htok : tokenFalsy s.session_token <;> simp [htok] at h ⊢
    cases hc : s.session_created <;> simp [hc] at h ⊢
  · intro c hc htok hexp
    simp [validate_session, htok, hc, hexp, logout]

/-- Witness for `C2_session_clear_amended` at concrete sessions. -/
theorem C2_session_clear_amended_witness :
    validate_session 0 cexS0 = (false, cexS0)
    ∧ validate_session 100000 cexS1 = (false, logout cexS1) :=
  ⟨(C2_session_clear_amended 0 cexS0).1 (by decide),
   (((C2_session_clear_amended 100000 cexS1).2 0 rfl rfl (by decide))).1⟩

/-- A session state with no `admin_user` key. -/
def stNoActor : SessionState :=
  { admin_authenticated := none, admin_user := none,
    session_token := some "tok", session_created := some 0, audit_logs := [] }

/-- A session state with the demo admin logged in. -/
def stWithActor : SessionState :=
  { admin_authenticated := some true, admin_user := some demoAdmin,
    session_token := some "tok", session_created := some 0, audit_logs := [] }

/-- C8: `log_admin_action` is a no-op when no actor is in session state,
and otherwise appends exactly one entry carrying the actor's id and email,
the action, the details, the timestamp and the source address. -/
theorem C8_log_admin_action_spec (now ip action : String)
    (details : List (String × String)) (s : SessionState) :
    (s.admin_user = none → log_admin_action now ip action details s = s)
    ∧ (∀ u, s.admin_user = some u →
        log_admin_action now ip action details s
          = { s with audit_logs := s.audit_logs ++ [auditEntry u action details now ip] }) := by
  constructor
  · intro h; simp [log_admin_action, h]
  · intro u h; simp [log_admin_action, h]

/-- Witness for `C8_log_admin_action_spec`: concrete no-actor and
with-actor calls. -/
theorem C8_log_admin_action_spec_witness :
    log_admin_action "t0" "127.0.0.1" "create_user" [("email", "e@x.com")] stNoActor
      = stNoActor
    ∧ log_admin_action "t0" "127.0.0.1" "create_user" [("email", "e@x.com")] stWithActor
      = { stWithActor with
          audit_logs := stWithActor.audit_logs
            ++ [auditEntry demoAdmin "create_user" [("email", "e@x.com")] "t0" "127.0.0.1"] } :=
  ⟨(C8_log_admin_action_spec "t0" "127.0.0.1" "create_user" [("email", "e@x.com")] stNoActor).1 rfl,
   (C8_log_admin_action_spec "t0" "127.0.0.1" "create_user" [("email", "e@x.com")] stWithActor).2
     demoAdmin rfl⟩

/-! ## Bulk operations and form submit handlers (`src/components/user_forms.py`) -/

/-- The five operation kinds offered by `bulk_operations_form`
(`src/components/user_forms.py` line 372–375). -/
inductive BulkOp where
  | activate
  | deactivate
  | changeRole
  | deleteUsers
  | sendPasswordReset
  deriving DecidableEq, Repr

/-- The UI label of a bulk operation. -/
def opName : BulkOp → String
  | .activate => "Activate Users"
  | .deactivate => "Deactivate Users"
  | .changeRole => "Change Role"
  | .deleteUsers => "Delete Users"
  | .sendPasswordReset => "Send Password Reset"

/-- Outcome of one iteration of the bulk loop
(`src/components/user_forms.py` lines 386–411).  `backend` is the connected
`SupabaseAdmin` — `none` in demo mode — abstracted as the per-identifier
result of the corresponding `update_user`/`delete_user` call.  For
"Send Password Reset" the code sets `success = True` without consulting the
backend at all (lines 409–411). -/
def bulkItemSuccess (op : BulkOp) (backend : Option (String → Bool)) (uid : String) : Bool :=
  match op with
  | .sendPasswordReset => true
  | _ =>
    match backend with
    | none => true
    | some call => call uid

/-- The backend calls issued while processing one identifier: one call for
the four backend-backed operations when a client is connected, none in demo
mode and none for "Send Password Reset". -/
def bulkItemCalls (op : BulkOp) (backend : Option (String → Bool)) (uid : String) :
    List String :=
  match op with
  | .sendPasswordReset => []
  | _ =>
    match backend with
    | none => []
    | some _ => [uid]

/-- The `for user_id in selected_users` loop of `bulk_operations_form`
(lines 384–414), written as structural recursion over the selection.
Returns the accumulated `success_count` together with the ordered list of
identifiers for which a backend call was issued. -/
def bulkRun (op : BulkOp) (backend : Option (String → Bool)) :
    List String → Nat × List String
  | [] => (0, [])
  | uid :: rest =>
    ((if bulkItemSuccess op backend uid then 1 else 0) + (bulkRun op backend rest).fst,
      bulkItemCalls op backend uid ++ (bulkRun op backend rest).snd)

/-- The details payload passed to `log_admin_action` by the bulk dispatcher
(lines 418–422); the id list is rendered to a string. -/
def bulkDetails (op : BulkOp) (cnt : Nat) (selected : List String) :
    List (String × String) :=
  [("operation", opName op), ("user_count", toString cnt),
   ("user_ids", String.intercalate "," selected)]

/-- `bulk_operations_form` `Execute` branch (lines 365–425): early return on
an empty selection, run the loop, and when `success_count > 0` record a
single `"bulk_operation"` audit entry.  Returns the success count and the
resulting session state. -/
def bulk_operations_form (op : BulkOp) (backend : Option (String → Bool))
    (selected : List String) (now ip : String) (s : SessionState) :
    Nat × SessionState :=
  if selected.isEmpty then (0, s)
  else
    let cnt := (bulkRun op backend selected).fst
    if cnt > 0 then
      (cnt, log_admin_action now ip "bulk_operation" (bulkDetails op cnt selected) s)
    else (cnt, s)

/-- Success tail of `add_user_form` (lines 88–104): `success` is the result
of `supabase_admin.create_user` (or `True` in demo mode); on success one
`"create_user"` audit entry is recorded. -/
def add_user_submit (success : Bool) (email role department now ip : String)
    (s : SessionState) : SessionState :=
  if success then
    log_admin_action now ip "create_user"
      [("email", email), ("role", role), ("department", department)] s
  else s

/-- Success tail of `edit_user_form` (lines 212–230): on success one
`"update_user"` audit entry is recorded; the `changes` dict is rendered to
a string. -/
def edit_user_submit (success : Bool) (uid email changes now ip : String)
    (s : SessionState) : SessionState :=
  if success then
    log_admin_action now ip "update_user"
      [("user_id", uid), ("email", email), ("changes", changes)] s
  else s

/-- Success tail of `delete_user_confirmation` (lines 241–259): on success
one `"delete_user"` audit entry is recorded. -/
def delete_user_submit (success : Bool) (uid email now ip : String)
    (s : SessionState) : SessionState :=
  if success then
    log_admin_action now ip "delete_user" [("user_id", uid), ("email", email)] s
  else s

/-- C9: for the "Send Password Reset" bulk operation every selected
identifier counts as a success and no backend call is ever issued, even
with a live (and arbitrarily failing) backend connected: the success count
is the full selection size. -/
theorem C9_password_reset_counts_all (f : String → Bool) (sel : List String) :
    bulkRun BulkOp.sendPasswordReset (some f) sel = (sel.length, []) := by
  induction sel with
  | nil => rfl
  | cons uid rest ih =>
    simp [bulkRun, bulkItemSuccess, bulkItemCalls, ih, Nat.add_comm]

/-- C3 counterexample: for the "Send Password Reset" operation kind with a
live backend that would fail on every identifier (K = N = 1), the success
count is 1, not N − K = 0, and no backend call is issued. -/
theorem C3_bulk_count_cex :
    ¬ ((bulkRun BulkOp.sendPasswordReset (some fun _ => false) ["u1"]).fst
        = ["u1"].length
          - (["u1"].filter (fun uid => !(fun _ : String => false) uid)).length)
    ∧ (bulkRun BulkOp.sendPasswordReset (some fun _ => false) ["u1"]).snd = [] := by
  decide

/-- On a live backend, every operation kind except "Send Password Reset"
takes its per-item success from the backend call. -/
theorem bulkItemSuccess_live (op : BulkOp) (f : String → Bool) (uid : String)
    (h : op ≠ BulkOp.sendPasswordReset) : bulkItemSuccess op (some f) uid = f uid := by
  cases op
  case sendPasswordReset => exact absurd rfl h
  all_goals rfl

/-- On a live backend, every operation kind except "Send Password Reset"
issues exactly one backend call per identifier. -/
theorem bulkItemCalls_live (op : BulkOp) (f : String → Bool) (uid : String)
    (h : op ≠ BulkOp.sendPasswordReset) : bulkItemCalls op (some f) uid = [uid] := by
  cases op
  case sendPasswordReset => exact absurd rfl h
  all_goals rfl

/-- C3 amended: for the four backend-backed operation kinds (activate,
deactivate, change-role, delete) on a live backend, the loop issues exactly
one call per selected identifier, in order and regardless of failures, and
the success count is N − K where K is the number of failing identifiers.
The "Send Password Reset" kind never calls the backend and counts every
identifier as a success (see `C9_password_reset_counts_all`'s statement). -/
theorem C3_bulk_amended (op : BulkOp) (f : String → Bool) (sel : List String)
    (h : op ≠ BulkOp.sendPasswordReset) :
    (bulkRun op (some f) sel).snd = sel
    ∧ (bulkRun op (some f) sel).fst
        = sel.length - (sel.filter (fun uid => !f uid)).length := by
  induction sel with
  | nil => simp [bulkRun]
  | cons uid rest ih =>
    obtain ⟨ih1, ih2⟩ := ih
    have hK := List.length_filter_le (fun uid => !f uid) rest
    constructor
    · simp [bulkRun, bulkItemCalls_live op f uid h, ih1]
    · simp only [bulkRun, bulkItemSuccess_live op f uid h, ih2, List.length_cons,
        List.filter_cons]
      cases hf : f uid <;> simp [hf] <;> omega

/-- Witness for `C3_bulk_amended`: bulk-deactivate of three identifiers
where the backend succeeds only on `"u2"` — all three attempted, count
3 − 2 = 1. -/
theorem C3_bulk_amended_witness :
    (bulkRun BulkOp.deactivate (some fun uid => uid == "u2") ["u1", "u2", "u3"]).snd
      = ["u1", "u2", "u3"]
    ∧ (bulkRun BulkOp.deactivate (some fun uid => uid == "u2") ["u1", "u2", "u3"]).fst
      = ["u1", "u2", "u3"].length
        - ((["u1", "u2", "u3"].filter (fun uid => !(uid == "u2")))).length :=
  C3_bulk_amended BulkOp.deactivate (fun uid => uid == "u2") ["u1", "u2", "u3"] (by decide)

/-- C1 counterexample: a bulk operation whose two members both succeed
appends a single audit entry (not one per member), and a successful create
with no actor in session state appends none. -/
theorem C1_audit_per_mutation_cex :
    (bulkRun BulkOp.activate (some fun _ => true) ["u1", "u2"]).fst = 2
    ∧ ((bulk_operations_form BulkOp.activate (some fun _ => true) ["u1", "u2"]
        "t0" "ip" stWithActor).snd.audit_logs).length = 1
    ∧ (add_user_submit true "e@x.com" "User" "IT" "t0" "ip" stNoActor).audit_logs.length
        = 0 := by
  decide

/-- C1 amended: when an admin actor is present in session state, each
successful create/update/delete submission appends exactly one audit entry
whose action names the mutation and whose details carry the target
identifier; a bulk operation with at least one success appends exactly one
entry for the whole batch (action `"bulk_operation"`), not one per member;
with no actor present nothing is appended (see `C2`/`C8`). -/
theorem C1_audit_amended (s : SessionState) (u : AdminUser)
    (hu : s.admin_user = some u) (now ip : String) :
    (∀ email role dept, add_user_submit true email role dept now ip s
        = { s with audit_logs := s.audit_logs
            ++ [auditEntry u "create_user"
                [("email", email), ("role", role), ("department", dept)] now ip] })
    ∧ (∀ uid email changes, edit_user_submit true uid email changes now ip s
        = { s with audit_logs := s.audit_logs
            ++ [auditEntry u "update_user"
                [("user_id", uid), ("email", email), ("changes", changes)] now ip] })
    ∧ (∀ uid email, delete_user_submit true uid email now ip s
        = { s with audit_logs := s.audit_logs
            ++ [auditEntry u "delete_user" [("user_id", uid), ("email", email)] now ip] })
    ∧ (∀ op backend sel, 0 < (bulkRun op backend sel).fst →
        (bulk_operations_form op backend sel now ip s).snd
          = { s with audit_logs := s.audit_logs
              ++ [auditEntry u "bulk_operation"
                  (bulkDetails op (bulkRun op backend sel).fst sel) now ip] }) := by
  refine ⟨?_, ?_, ?_, ?_⟩
  · intro email role dept
    simp [add_user_submit, log_admin_action, hu]
  · intro uid email changes
    simp [edit_user_submit, log_admin_action, hu]
  · intro uid email
    simp [delete_user_submit, log_admin_action, hu]
  · intro op backend sel hcnt
    cases sel with
    | nil => simp [bulkRun] at hcnt
    | cons a rest =>
      simp [bulk_operations_form, hcnt, log_admin_action, hu]

/-- Witness for `C1_audit_amended`: concrete create and bulk calls with the
demo admin logged in. -/
theorem C1_audit_amended_witness :
    add_user_submit true "e@x.com" "User" "IT" "t0" "ip" stWithActor
      = { stWithActor with audit_logs := stWithActor.audit_logs
          ++ [auditEntry demoAdmin "create_user"
              [("email", "e@x.com"), ("role", "User"), ("department", "IT")] "t0" "ip"] }
    ∧ (bulk_operations_form BulkOp.activate none ["u1"] "t0" "ip" stWithActor).snd
      = { stWithActor with audit_logs := stWithActor.audit_logs
          ++ [auditEntry demoAdmin "bulk_operation"
              (bulkDetails BulkOp.activate
                (bulkRun BulkOp.activate none ["u1"]).fst ["u1"]) "t0" "ip"] } :=
  ⟨(C1_audit_amended stWithActor demoAdmin rfl "t0" "ip").1 "e@x.com" "User" "IT",
   (C1_audit_amended stWithActor demoAdmin rfl "t0" "ip").2.2.2 BulkOp.activate none ["u1"]
     (by decide)⟩

/-! ## List-Filter-Render loop (`render_user_management` in `src/enhanced_app.py`
lines 320–338 and, identically, `src/app.py` lines 285–303).

The text search is `pandas.Series.str.contains(query, case=False, na=False)`,
whose default is `regex=True`: the query is a regular expression, not a
literal substring.  The regex engine is embedded for the fragment these
queries exercise — literal characters and the `.` wildcard — with
`re.IGNORECASE` modelled by lowering both sides. -/

/-- A regex token: a literal character or the `.` wildcard. -/
inductive RTok where
  | lit (c : Char)
  | dot
  deriving DecidableEq, Repr

/-- One token against one (already lowered) subject character; literal
pattern characters are lowered at comparison time (`re.IGNORECASE`). -/
def tokMatch : RTok → Char → Bool
  | .lit c, d => c.toLower == d
  | .dot, _ => true

/-- Whether the token list matches a prefix of the subject. -/
def matchHere : List RTok → List Char → Bool
  | [], _ => true
  | _ :: _, [] => false
  | t :: ts, c :: cs => tokMatch t c && matchHere ts cs

/-- `re.search` over the embedded fragment: the pattern may match starting
at any position of the subject. -/
def reSearch (p : List RTok) : List Char → Bool
  | [] => matchHere p []
  | c :: cs => matchHere p (c :: cs) || reSearch p cs

/-- Tokenisation of the query: `.` is the wildcard, everything else a
literal.  Faithful exactly for queries whose only regex metacharacter
is `.`. -/
def reTok (c : Char) : RTok := if c = '.' then .dot else .lit c

/-- `Series.str.contains(pat, case=False, na=False)` on one cell. -/
def pandasContains (pat s : String) : Bool :=
  reSearch (pat.data.map reTok) (s.data.map Char.toLower)

/-- Literal (substring) containment of `p` in `s` over character lists. -/
def containsSeg : List Char → List Char → Bool
  | p, [] => p.isEmpty
  | p, c :: cs => p.isPrefixOf (c :: cs) || containsSeg p cs

/-- The spec's search predicate: case-insensitive literal substring match. -/
def containsCI (q s : String) : Bool :=
  containsSeg (q.data.map Char.toLower) (s.data.map Char.toLower)

/-- One row of the user table (the columns the filters touch). -/
structure UserRow where
  id : String
  email : String
  fullName : String
  role : String
  status : String
  deriving DecidableEq, Repr

/-- The filter pipeline of `render_user_management`: the search mask is
applied only when the query is non-empty (Python truthiness), then the role
filter unless `"All"`, then the status filter unless `"All"`. -/
def render_user_management_filter (rows : List UserRow) (q roleF statusF : String) :
    List UserRow :=
  let r1 := if q.isEmpty then rows
    else rows.filter (fun u => pandasContains q u.email || pandasContains q u.fullName)
  let r2 := if roleF == "All" then r1 else r1.filter (fun u => u.role == roleF)
  if statusF == "All" then r2 else r2.filter (fun u => u.status == statusF)

/-- The record predicate the spec describes: case-insensitive substring
match on email or display name, exact role unless `"All"`, exact status
unless `"All"`, conjoined. -/
def specKeep (q roleF statusF : String) (u : UserRow) : Bool :=
  (containsCI q u.email || containsCI q u.fullName)
  && (roleF == "All" || u.role == roleF)
  && (statusF == "All" || u.status == statusF)

/-- Python regular-expression metacharacters. -/
def regexMetas : List Char :=
  ['.', '^', '$', '*', '+', '?', '\x7b', '\x7d', '[', ']', '\\', '|', '(', ')']

/-- The empty pattern is a substring of everything. -/
theorem containsSeg_nil (s : List Char) : containsSeg [] s = true := by
  cases s <;> rfl

/-- A purely literal token list matches a prefix iff the lowered pattern is
a list prefix. -/
theorem matchHere_lit (p m : List Char) :
    matchHere (p.map RTok.lit) m = (p.map Char.toLower).isPrefixOf m := by
  induction p generalizing m with
  | nil => cases m <;> rfl
  | cons c cs ih =>
    cases m with
    | nil => rfl
    | cons d ds => simp [matchHere, tokMatch, List.isPrefixOf, ih]

/-- Searching a purely literal token list is substring containment of the
lowered pattern. -/
theorem reSearch_lit (p m : List Char) :
    reSearch (p.map RTok.lit) m = containsSeg (p.map Char.toLower) m := by
  induction m with
  | nil => cases p <;> rfl
  | cons d ds ih => simp [reSearch, containsSeg, matchHere_lit, ih]

/-- A metacharacter-free query tokenises to literals only. -/
theorem map_reTok_of_no_meta (l : List Char) (h : ∀ c ∈ l, c ∉ regexMetas) :
    l.map reTok = l.map RTok.lit := by
  induction l with
  | nil => rfl
  | cons c cs ih =>
    have hc : c ≠ '.' := by
      intro e
      exact h c (List.mem_cons_self c cs) (by rw [e]; decide)
    simp [reTok, hc, ih (fun d hd => h d (List.mem_cons_of_mem _ hd))]

/-- On metacharacter-free queries the pandas regex search coincides with
case-insensitive substring containment. -/
theorem pandasContains_of_no_meta (q s : String) (h : ∀ c ∈ q.data, c ∉ regexMetas) :
    pandasContains q s = containsCI q s := by
  unfold pandasContains containsCI
  rw [map_reTok_of_no_meta q.data h, reSearch_lit]

/-- The empty query matches every cell. -/
theorem containsCI_nil (s : String) : containsCI "" s = true :=
  containsSeg_nil _

/-- A row whose email is matched by the regex reading of the query `"a.c"`
but not by its literal-substring reading. -/
def cexRow : UserRow :=
  { id := "user-1", email := "abc@x.com", fullName := "Abc",
    role := "User", status := "Active" }

/-- C4 counterexample: with query `"a.c"` (regex: `a`, any char, `c`) the
code keeps `cexRow` — pandas `str.contains` treats the query as a regular
expression — while the claimed substring predicate drops it. -/
theorem C4_filter_substring_cex :
    render_user_management_filter [cexRow] "a.c" "All" "All" = [cexRow]
    ∧ [cexRow].filter (specKeep "a.c" "All" "All") = [] := by
  decide

/-- C4 amended: for queries containing no Python regex metacharacter, the
rendered set is exactly the rows satisfying the conjunction of the three
predicates — case-insensitive substring match on email or display name,
exact role unless `"All"`, exact status unless `"All"`.  (For
metacharacter queries the search conjunct is regex semantics instead; see
`C4_filter_substring_cex`'s statement.) -/
theorem C4_filter_amended (rows : List UserRow) (q roleF statusF : String)
    (h : ∀ c ∈ q.data, c ∉ regexMetas) :
    render_user_management_filter rows q roleF statusF
      = rows.filter (specKeep q roleF statusF) := by
  have hpc : ∀ s, pandasContains q s = containsCI q s :=
    fun s => pandasContains_of_no_meta q s h
  have htext : (if q.isEmpty then rows
        else rows.filter (fun u => pandasContains q u.email || pandasContains q u.fullName))
      = rows.filter (fun u => containsCI q u.email || containsCI q u.fullName) := by
    by_cases hqe : q.isEmpty
    · have hq : q = "" := (String.isEmpty_iff q).mp hqe
      subst hq
      rw [if_pos hqe]
      symm
      exact List.filter_eq_self.mpr (fun a _ => by simp [containsCI_nil])
    · rw [if_neg hqe]
      exact List.filter_congr (fun u _ => by rw [hpc, hpc])
  simp only [render_user_management_filter, htext]
  rcases Bool.eq_false_or_eq_true (roleF == "All") with hr | hr <;>
    rcases Bool.eq_false_or_eq_true (statusF == "All") with hs | hs <;>
    simp [hr, hs, List.filter_filter] <;>
    exact List.filter_congr
      (fun u _ => by simp [specKeep, hr, hs, Bool.and_comm, Bool.and_left_comm])

/-- The four demo rows of `render_user_management`. -/
def demoRows : List UserRow :=
  [{ id := "user-1", email := "entremotivator@gmail.com", fullName := "Admin User",
     role := "Admin", status := "Active" },
   { id := "user-2", email := "john.doe@example.com", fullName := "John Doe",
     role := "User", status := "Active" },
   { id := "user-3", email := "jane.smith@example.com", fullName := "Jane Smith",
     role := "User", status := "Inactive" },
   { id := "user-4", email := "mike.wilson@example.com", fullName := "Mike Wilson",
     role := "Moderator", status := "Active" }]

/-- Witness for `C4_filter_amended` on the demo rows with a
metacharacter-free query. -/
theorem C4_filter_amended_witness :
    render_user_management_filter demoRows "mike" "All" "Active"
      = demoRows.filter (specKeep "mike" "All" "Active") :=
  C4_filter_amended demoRows "mike" "All" "Active" (by decide)

/-! ## Remote Account Client (`SupabaseAdmin`, `src/utils/supabase_client.py`)

The backend SDK is modelled as a record of calls, each returning
`Except String α`: `.error` is a raised exception.  Each `SupabaseAdmin`
method is the direct translation of its `try` body into the `Except` monad
(the `…E` definition), wrapped by `orDefault`, the embedding of its
`except` clause; the wrapped operations are total Lean functions, which is
the model of "no exception propagates to the caller".  Dict payloads are
association lists with string-rendered values. -/

/-- The SDK user object (the attributes the code reads). -/
structure UserObj where
  id : String
  email : String
  created_at : String
  deriving DecidableEq, Repr

/-- The backend SDK surface used by `SupabaseAdmin`. -/
structure Backend where
  sign_in_with_password : String → String → Except String (Option UserObj)
  admin_list_users : Unit → Except String (List UserObj)
  profiles_select : String → Except String (List (List (String × String)))
  admin_create_user : String → String → Except String (Option UserObj)
  profiles_insert : List (String × String) → Except String Unit
  admin_update_user_by_id : String → List (String × String) → Except String Unit
  profiles_update : String → List (String × String) → Except String Unit
  profiles_delete : String → Except String Unit
  admin_delete_user : String → Except String Unit
  reset_password_email : String → Except String Unit
  profiles_select_role_status : Unit → Except String (List (List (String × String)))
  profiles_or_ilike : String → Except String (List (List (String × String)))

/-- A Python `try: body except: return d`. -/
def orDefault {α : Type} (x : Except String α) (d : α) : α :=
  match x with
  | .ok v => v
  | .error _ => d

/-- `try` body of `get_user_profile` (lines 81–88):
`response.data[0] if response.data else None`. -/
def get_user_profileE (b : Backend) (uid : String) :
    Except String (Option (List (String × String))) :=
  (b.profiles_select uid).map List.head?

/-- `SupabaseAdmin.get_user_profile`: exceptions become `None`. -/
def get_user_profile (b : Backend) (uid : String) : Option (List (String × String)) :=
  orDefault (get_user_profileE b uid) none

/-- Python `if user_data and user_data.get('role') == 'admin'`
(empty dict is falsy). -/
def profileTruthyAdmin : Option (List (String × String)) → Bool
  | none => false
  | some p => !p.isEmpty && (p.lookup "role" == some "admin")

/-- `try` body of `authenticate_admin` (lines 33–55): sign in, resolve the
profile, require role admin, and on success store the user in session
state. -/
def authenticate_adminE (b : Backend) (email pw : String) (s : SessionState) :
    Except String (Bool × SessionState) := do
  let response ← b.sign_in_with_password email pw
  match response with
  | some user =>
    if profileTruthyAdmin (get_user_profile b user.id) then
      pure (true, { s with admin_user := some { id := user.id, email := user.email },
                           admin_authenticated := some true })
    else
      pure (false, s)
  | none => pure (false, s)

/-- `SupabaseAdmin.authenticate_admin`: exceptions become `False` with the
session state untouched. -/
def authenticate_admin (b : Backend) (email pw : String) (s : SessionState) :
    Bool × SessionState :=
  orDefault (authenticate_adminE b email pw s) (false, s)

/-- `try` body of `get_all_users` (lines 70–79); `response if response
else []` is the identity on lists. -/
def get_all_usersE (b : Backend) : Except String (List UserObj) :=
  b.admin_list_users ()

/-- `SupabaseAdmin.get_all_users`: exceptions become `[]`. -/
def get_all_users (b : Backend) : List UserObj :=
  orDefault (get_all_usersE b) []

/-- `try` body of `create_user` (lines 90–118): create the auth user, then
insert the profile row built from the returned id and timestamp. -/
def create_userE (b : Backend) (email password : String)
    (user_data : List (String × String)) : Except String Bool := do
  let response ← b.admin_create_user email password
  match response with
  | some user => do
    b.profiles_insert
      [("id", user.id), ("email", email),
       ("full_name", (user_data.lookup "full_name").getD ""),
       ("role", (user_data.lookup "role").getD "user"),
       ("status", (user_data.lookup "status").getD "active"),
       ("created_at", user.created_at)]
    pure true
  | none => pure false

/-- `SupabaseAdmin.create_user`: exceptions become `False`. -/
def create_user (b : Backend) (email password : String)
    (user_data : List (String × String)) : Bool :=
  orDefault (create_userE b email password user_data) false

/-- The `auth_updates` dict of `update_user` (lines 124–128): the email
when present, then the password when present and truthy (non-empty). -/
def authUpdatesOf (user_data : List (String × String)) : List (String × String) :=
  (match user_data.lookup "email" with
   | some e => [("email", e)]
   | none => []) ++
  (match user_data.lookup "password" with
   | some p => if p.isEmpty then [] else [("password", p)]
   | none => [])

/-- The `profile_updates` dict of `update_user` (line 134): every field of
`user_data` except `password`. -/
def profileUpdatesOf (user_data : List (String × String)) : List (String × String) :=
  user_data.filter (fun kv => !(kv.fst == "password"))

/-- `try` body of `update_user` (lines 120–143): the credential call when
`auth_updates` is non-empty, then the profiles-table call when
`profile_updates` is non-empty. -/
def update_userE (b : Backend) (uid : String)
    (user_data : List (String × String)) : Except String Bool := do
  if (authUpdatesOf user_data).isEmpty then pure ()
  else b.admin_update_user_by_id uid (authUpdatesOf user_data)
  if (profileUpdatesOf user_data).isEmpty then pure ()
  else b.profiles_update uid (profileUpdatesOf user_data)
  pure true

/-- `SupabaseAdmin.update_user`: exceptions become `False`. -/
def update_user (b : Backend) (uid : String)
    (user_data : List (String × String)) : Bool :=
  orDefault (update_userE b uid user_data) false

/-- `try` body of `delete_user` (lines 145–159): profile row first, then
the auth record. -/
def delete_userE (b : Backend) (uid : String) : Except String Bool := do
  b.profiles_delete uid
  b.admin_delete_user uid
  pure true

/-- `SupabaseAdmin.delete_user`: exceptions become `False`. -/
def delete_user (b : Backend) (uid : String) : Bool :=
  orDefault (delete_userE b uid) false

/-- `try` body of `reset_user_password` (lines 161–170). -/
def reset_user_passwordE (b : Backend) (email : String) : Except String Bool := do
  b.reset_password_email email
  pure true

/-- `SupabaseAdmin.reset_user_password`: exceptions become `False`. -/
def reset_user_password (b : Backend) (email : String) : Bool :=
  orDefault (reset_user_passwordE b email) false

/-- The stats dict of `get_user_stats` (lines 179–185). -/
structure Stats where
  total_users : Nat
  active_users : Nat
  inactive_users : Nat
  admin_users : Nat
  regular_users : Nat
  deriving DecidableEq, Repr

/-- The zeroed stats dict returned on failure (line 189). -/
def zeroStats : Stats :=
  { total_users := 0, active_users := 0, inactive_users := 0,
    admin_users := 0, regular_users := 0 }

/-- `try` body of `get_user_stats` (lines 172–189): `get_all_users`
catches its own exceptions, so only the role/status select can raise. -/
def get_user_statsE (b : Backend) : Except String Stats := do
  let profiles ← b.profiles_select_role_status ()
  pure { total_users := (get_all_users b).length,
         active_users := (profiles.filter (fun p => p.lookup "status" == some "active")).length,
         inactive_users := (profiles.filter (fun p => p.lookup "status" == some "inactive")).length,
         admin_users := (profiles.filter (fun p => p.lookup "role" == some "admin")).length,
         regular_users := (profiles.filter (fun p => p.lookup "role" == some "user")).length }

/-- `SupabaseAdmin.get_user_stats`: exceptions become the zeroed dict. -/
def get_user_stats (b : Backend) : Stats :=
  orDefault (get_user_statsE b) zeroStats

/-- `try` body of `search_users` (lines 191–200). -/
def search_usersE (b : Backend) (q : String) :
    Except String (List (List (String × String))) :=
  b.profiles_or_ilike q

/-- `SupabaseAdmin.search_users`: exceptions become `[]`. -/
def search_users (b : Backend) (q : String) : List (List (String × String)) :=
  orDefault (search_usersE b q) []

/-- C6: for each Remote Account Client operation, when the underlying SDK
body raises (the `…E` translation of the `try` block evaluates to
`.error`), the operation returns its failure value — `false`, `[]`,
`none`, or the zeroed stats — and, being a total function, never
propagates the exception. -/
theorem C6_fail_soft (b : Backend) (s : SessionState)
    (email pw uid q : String) (ud : List (String × String)) (e : String) :
    (authenticate_adminE b email pw s = .error e →
      authenticate_admin b email pw s = (false, s))
    ∧ (get_all_usersE b = .error e → get_all_users b = [])
    ∧ (get_user_profileE b uid = .error e → get_user_profile b uid = none)
    ∧ (create_userE b email pw ud = .error e → create_user b email pw ud = false)
    ∧ (update_userE b uid ud = .error e → update_user b uid ud = false)
    ∧ (delete_userE b uid = .error e → delete_user b uid = false)
    ∧ (reset_user_passwordE b email = .error e → reset_user_password b email = false)
    ∧ (get_user_statsE b = .error e → get_user_stats b = zeroStats)
    ∧ (search_usersE b q = .error e → search_users b q = []) := by
  refine ⟨?_, ?_, ?_, ?_, ?_, ?_, ?_, ?_, ?_⟩ <;>
    (intro h
     simp [authenticate_admin, get_all_users, get_user_profile, create_user,
       update_user, delete_user, reset_user_password, get_user_stats, search_users,
       orDefault, h])

/-- A backend whose every call raises. -/
def bFail : Backend where
  sign_in_with_password := fun _ _ => .error "backend down"
  admin_list_users := fun _ => .error "backend down"
  profiles_select := fun _ => .error "backend down"
  admin_create_user := fun _ _ => .error "backend down"
  profiles_insert := fun _ => .error "backend down"
  admin_update_user_by_id := fun _ _ => .error "backend down"
  profiles_update := fun _ _ => .error "backend down"
  profiles_delete := fun _ => .error "backend down"
  admin_delete_user := fun _ => .error "backend down"
  reset_password_email := fun _ => .error "backend down"
  profiles_select_role_status := fun _ => .error "backend down"
  profiles_or_ilike := fun _ => .error "backend down"

/-- Witness for `C6_fail_soft`: every operation against the failing
backend returns its failure value. -/
theorem C6_fail_soft_witness :
    authenticate_admin bFail "a@x.com" "pw" stNoActor = (false, stNoActor)
    ∧ get_all_users bFail = []
    ∧ get_user_profile bFail "u1" = none
    ∧ create_user bFail "a@x.com" "pw" [("email", "a@x.com")] = false
    ∧ update_user bFail "u1" [("email", "a@x.com")] = false
    ∧ delete_user bFail "u1" = false
    ∧ reset_user_password bFail "a@x.com" = false
    ∧ get_user_stats bFail = zeroStats
    ∧ search_users bFail "q" = [] := by
  obtain ⟨h1, h2, h3, h4, h5, h6, h7, h8, h9⟩ :=
    C6_fail_soft bFail stNoActor "a@x.com" "pw" "u1" "q" [("email", "a@x.com")] "backend down"
  exact ⟨h1 rfl, h2 rfl, h3 rfl, h4 rfl, h5 rfl, h6 rfl, h7 rfl, h8 rfl, h9 rfl⟩

/-- Looking up `password` after filtering out the `password` key yields
nothing. -/
theorem lookup_profileUpdatesOf (ud : List (String × String)) :
    (profileUpdatesOf ud).lookup "password" = none := by
  induction ud with
  | nil => rfl
  | cons kv rest ih =>
    obtain ⟨k, v⟩ := kv
    by_cases hk : k = "password"
    · simp [profileUpdatesOf, hk] at ih ⊢
      exact ih
    · have hk1 : (k == "password") = false := beq_eq_false_iff_ne.mpr hk
      have hk2 : ("password" == k) = false :=
        beq_eq_false_iff_ne.mpr (fun h => hk h.symm)
      simpa [profileUpdatesOf, List.filter_cons, hk1, List.lookup, hk2] using ih

/-- C10: the profiles-table update payload of `update_user` never contains
the `password` key, and a present, non-empty password is routed to the
credential-update payload. -/
theorem C10_password_routing (ud : List (String × String)) :
    (profileUpdatesOf ud).lookup "password" = none
    ∧ (∀ p, ud.lookup "password" = some p → p.isEmpty = false →
        (authUpdatesOf ud).lookup "password" = some p) := by
  refine ⟨lookup_profileUpdatesOf ud, ?_⟩
  intro p hp hpe
  unfold authUpdatesOf
  rw [hp]
  cases he : ud.lookup "email" <;> simp [hpe, List.lookup]

/-- Witness for `C10_password_routing` on a concrete update dict. -/
theorem C10_password_routing_witness :
    (profileUpdatesOf
        [("email", "a@x.com"), ("password", "secret99"), ("role", "admin")]).lookup "password"
      = none
    ∧ (authUpdatesOf
        [("email", "a@x.com"), ("password", "secret99"), ("role", "admin")]).lookup "password"
      = some "secret99" :=
  ⟨(C10_password_routing [("email", "a@x.com"), ("password", "secret99"), ("role", "admin")]).1,
   (C10_password_routing [("email", "a@x.com"), ("password", "secret99"), ("role", "admin")]).2
     "secret99" rfl rfl⟩

/-! ## Schema bootstrap (`DatabaseSetup.execute_setup`,
`src/utils/database_setup.py` lines 330–356) -/

/-- Python `script.split(';')` over the character list (keeps empty
fragments, no delimiter merging — exactly `str.split` with an explicit
separator). -/
def pySplitSemi : List Char → List (List Char)
  | [] => [[]]
  | c :: cs =>
    match pySplitSemi cs with
    | [] => [[]]
    | h :: t => if c = ';' then [] :: h :: t else (c :: h) :: t

/-- Python `fragment.strip()`: whitespace removed from both ends. -/
def pyStrip (l : List Char) : List Char :=
  ((l.dropWhile Char.isWhitespace).reverse.dropWhile Char.isWhitespace).reverse

/-- Python `statement.startswith('--')`. -/
def startsWithDashDash : List Char → Bool
  | '-' :: '-' :: _ => true
  | _ => false

/-- Line 336: split the script on `;`, strip each fragment, drop the empty
ones. -/
def splitStatements (script : String) : List (List Char) :=
  ((pySplitSemi script.data).map pyStrip).filter (fun stmt => !stmt.isEmpty)

/-- The per-statement loop (lines 341–349): a statement is attempted (one
`rpc('exec_sql', …)` call) only when non-empty and not beginning with
`--`; the `oracle` says whether that call succeeds, a failure is caught
and the loop continues.  Returns the `success_count` and the ordered list
of attempted statements. -/
def execSetupLoop (oracle : List Char → Bool) : List (List Char) → Nat × List (List Char)
  | [] => (0, [])
  | stmt :: rest =>
    if !stmt.isEmpty && !startsWithDashDash stmt then
      ((if oracle stmt then 1 else 0) + (execSetupLoop oracle rest).fst,
        stmt :: (execSetupLoop oracle rest).snd)
    else execSetupLoop oracle rest

/-- `DatabaseSetup.execute_setup`: split, run the loop, report success iff
at least one statement succeeded (line 352). -/
def execute_setup (oracle : List Char → Bool) (script : String) : Bool :=
  (execSetupLoop oracle (splitStatements script)).fst > 0

/-- C7 counterexample: the splitter produces a fragment that begins with a
`--` comment line but carries real SQL after it, and that fragment is
never attempted — so not every statement of the list is executed, and a
statement remaining after a failure (here the first statement fails) is
not attempted. -/
theorem C7_each_statement_cex :
    splitStatements "CREATE TABLE a (x int);-- trailing comment\nSELECT 1"
      = ["CREATE TABLE a (x int)".data, "-- trailing comment\nSELECT 1".data]
    ∧ (execSetupLoop (fun _ => false)
        (splitStatements "CREATE TABLE a (x int);-- trailing comment\nSELECT 1")).snd
      = ["CREATE TABLE a (x int)".data] := by
  decide

/-- C7 amended: the bootstrap splits on `;` and executes each non-empty
statement that does not begin with `--` independently: the attempted set
is exactly those statements, in order, independent of which attempts fail
(failures are caught and the remainder is still attempted), and the
success count is the number of successful attempts. -/
theorem C7_execute_setup_amended (oracle : List Char → Bool) (stmts : List (List Char)) :
    (execSetupLoop oracle stmts).snd
      = stmts.filter (fun stmt => !stmt.isEmpty && !startsWithDashDash stmt)
    ∧ (execSetupLoop oracle stmts).fst
      = ((stmts.filter (fun stmt => !stmt.isEmpty && !startsWithDashDash stmt)).filter
          oracle).length := by
  induction stmts with
  | nil => exact ⟨rfl, rfl⟩
  | cons stmt rest ih =>
    obtain ⟨ih1, ih2⟩ := ih
    by_cases hc : (!stmt.isEmpty && !startsWithDashDash stmt) = true
    · cases ho : oracle stmt <;>
        simp [execSetupLoop, hc, List.filter_cons, ho, ih1, ih2, Nat.add_comm]
    · simp [execSetupLoop, hc, List.filter_cons, ih1, ih2]

end AdminApp
